import Mathlib

/-!
# A verification development for the digdug tunnel library

This file gives a shallow embedding of the process-lifecycle and WebDriver
proxying layer of the digdug repository and proves properties of that
embedding.  The embedded functions are translated from:

* `src/Tunnel.ts` — the base `Tunnel` class (`start`, `stop`, `download`,
  `_makeChild`);
* `src/lib/tunnelChildProcesses.ts` — `makeChildWithCommand`;
* `src/WebDriverTunnel.ts` — port allocation in `createWebDriverChild`;
* `src/lib/WebDriverProxy.ts` — the reverse proxy (`createSession`,
  `requestNewSession`, `checkNewSessionError`, `handleNewSessionResponse`,
  the DELETE route handler and `getSessions`).

Event-driven code is embedded as explicit state machines folded over event
lists; asynchronous tasks are represented by a `TaskState` value; exit codes
are integers.
-/

namespace DigDug

/-- State of a dojo/intern `Task`: pending, fulfilled, rejected with an error
message, or canceled. -/
inductive TaskState where
  | pending
  | fulfilled
  | rejected (msg : String)
  | canceledTask
deriving DecidableEq, Repr

/-- Events observable during a `_makeChild` / `makeChildWithCommand` run:
child-process events and a cancellation request on the returned task. -/
inductive MCEvent where
  /-- a `data` event on `child.stderr` carrying a text chunk -/
  | stderrData (s : String)
  /-- the `exit` event on `child`, carrying the exit code -/
  | exitEvt (code : Int)
  /-- the `close` event on `child.stderr` -/
  | stderrClose
  /-- the `error` event on `child` (e.g. spawn failure) -/
  | errorEvt (msg : String)
  /-- the executor (startup detector) called `resolve` -/
  | execResolve
  /-- `cancel()` was invoked on the task -/
  | cancel
deriving DecidableEq, Repr

/-- The mutable state of one `_makeChild` / `makeChildWithCommand` run:
the closure variables (`errorMessage`, `exitCode`, `exitted`,
`stderrClosed`, `canceled`), the inner task state, whether a kill was
issued, and whether the outer task (after `.finally`) has settled.
`exitAfterCancel` records that a child `exit` event was observed after
cancellation (the condition under which the `finally` clause lets a
canceled run settle). -/
structure MCState where
  errorMessage : String
  exitCode : Option Int
  exitted : Bool
  stderrClosed : Bool
  canceled : Bool
  killIssued : Bool
  task : TaskState
  settled : Bool
  exitAfterCancel : Bool
deriving DecidableEq, Repr

/-- Initial state of a `_makeChild` / `makeChildWithCommand` run, right
after the child was spawned and the handlers were installed. -/
def initMC : MCState :=
  { errorMessage := ""
    exitCode := none
    exitted := false
    stderrClosed := false
    canceled := false
    killIssued := false
    task := .pending
    settled := false
    exitAfterCancel := false }

/-- The rejection message built by `handleChildExit` in `Tunnel._makeChild`
(src/Tunnel.ts 397–401): `` `Tunnel failed to start: ${errorMessage ||
`Exit code: ${exitCode}`}` ``.  The empty string is falsy in JS; `exitCode`
was initialized to `null` and is captured by the `exit` handler. -/
def mkFailMsgT (st : MCState) : String :=
  "Tunnel failed to start: " ++
    (if st.errorMessage = "" then
      "Exit code: " ++ (match st.exitCode with
        | some c => toString c
        | none => "null")
    else st.errorMessage)

/-- The rejection message built by `handleChildExit` in
`makeChildWithCommand` (src/lib/tunnelChildProcesses.ts 46–53).  There
`exitCode` is declared `number | undefined` and is never assigned, so JS
string interpolation renders it as `"undefined"`. -/
def mkFailMsgC (st : MCState) : String :=
  "Tunnel failed to start: " ++
    (if st.errorMessage = "" then
      "Exit code: " ++ (match st.exitCode with
        | some c => toString c
        | none => "undefined")
    else st.errorMessage)

/-- One step of the event handlers installed by `Tunnel._makeChild`
(src/Tunnel.ts 384–447).  Handlers are live only while the inner task is
pending (the `finally` clause destroys the composite handle as soon as the
task settles); the `exit` handler records the exit code and rejects once
stderr has closed; the `close` handler on stderr rejects once an exit code
was recorded; the canceler sets `canceled` and issues
`child.kill('SIGINT')`; after cancellation the `finally` clause waits for
the child's `exit` event before the outer task settles. -/
def stepT (st : MCState) (e : MCEvent) : MCState :=
  if st.settled then st else
  match e with
  | .stderrData s =>
      if st.task = .pending then { st with errorMessage := st.errorMessage ++ s } else st
  | .exitEvt c =>
      if st.canceled then
        { st with settled := true, exitAfterCancel := true }
      else if st.task = .pending then
        let st := { st with exitCode := some c }
        if st.stderrClosed then
          { st with task := .rejected (mkFailMsgT st), settled := true }
        else st
      else st
  | .stderrClose =>
      if st.task = .pending then
        let st := { st with stderrClosed := true }
        match st.exitCode with
        | some _ => { st with task := .rejected (mkFailMsgT st), settled := true }
        | none => st
      else st
  | .errorEvt msg =>
      if st.task = .pending then { st with task := .rejected msg, settled := true } else st
  | .execResolve =>
      if st.task = .pending then { st with task := .fulfilled, settled := true } else st
  | .cancel =>
      if st.task = .pending then
        { st with canceled := true, killIssued := true, task := .canceledTask }
      else st

/-- One step of the event handlers installed by `makeChildWithCommand`
(src/lib/tunnelChildProcesses.ts 39–107).  Identical in structure to
`Tunnel._makeChild` except that the `exit` handler records only
`exitted = true` — the exit code is not captured — and the canceler calls
`kill(child.pid)` inside a `try`/`catch`. -/
def stepC (st : MCState) (e : MCEvent) : MCState :=
  if st.settled then st else
  match e with
  | .stderrData s =>
      if st.task = .pending then { st with errorMessage := st.errorMessage ++ s } else st
  | .exitEvt _ =>
      if st.canceled then
        { st with settled := true, exitAfterCancel := true }
      else if st.task = .pending then
        let st := { st with exitted := true }
        if st.stderrClosed then
          { st with task := .rejected (mkFailMsgC st), settled := true }
        else st
      else st
  | .stderrClose =>
      if st.task = .pending then
        let st := { st with stderrClosed := true }
        if st.exitted then
          { st with task := .rejected (mkFailMsgC st), settled := true }
        else st
      else st
  | .errorEvt msg =>
      if st.task = .pending then { st with task := .rejected msg, settled := true } else st
  | .execResolve =>
      if st.task = .pending then { st with task := .fulfilled, settled := true } else st
  | .cancel =>
      if st.task = .pending then
        { st with canceled := true, killIssued := true, task := .canceledTask }
      else st

/-- Run `Tunnel._makeChild` over a list of events. -/
def runT (evs : List MCEvent) : MCState := evs.foldl stepT initMC

/-- Run `makeChildWithCommand` over a list of events. -/
def runC (evs : List MCEvent) : MCState := evs.foldl stepC initMC

/-! ## Tunnel lifecycle state (src/Tunnel.ts) -/

/-- The lifecycle flags and bookkeeping of a `Tunnel` instance: the
`isRunning` / `isStarting` / `isStopping` flags, the in-flight `_startTask`
(identified by a task id), the number of OS processes spawned so far, and a
counter supplying fresh task ids. -/
structure TunnelState where
  isRunning : Bool
  isStarting : Bool
  isStopping : Bool
  startTask : Option Nat
  spawnCount : Nat
  nextTaskId : Nat
deriving DecidableEq, Repr

/-- The prototype defaults assigned at the bottom of src/Tunnel.ts
(686–703): `isRunning`, `isStarting` and `isStopping` are all `false` on a
fresh instance, and no start task or process exists. -/
def initTunnel : TunnelState :=
  { isRunning := false
    isStarting := false
    isStopping := false
    startTask := none
    spawnCount := 0
    nextTaskId := 0 }

/-- What `Tunnel.start` returns: a thrown error or a task. -/
inductive StartResult where
  | threw (msg : String)
  | task (id : Nat)
deriving DecidableEq, Repr

/-- `Tunnel.start` (src/Tunnel.ts 481–547): throw when already running or
still stopping; while `isStarting`, return the existing `_startTask`
unchanged; otherwise set `isStarting`, record a fresh `_startTask` and
launch it — the task downloads if needed and then spawns exactly one child
process (`_start` → `_makeChild` → `spawn`), counted here in
`spawnCount`. -/
def start (st : TunnelState) : StartResult × TunnelState :=
  if st.isRunning then (.threw "Tunnel is already running", st)
  else if st.isStopping then (.threw "Previous tunnel is still terminating", st)
  else if st.isStarting then (.task (st.startTask.getD 0), st)
  else
    (.task st.nextTaskId,
     { st with
        isStarting := true
        startTask := some st.nextTaskId
        spawnCount := st.spawnCount + 1
        nextTaskId := st.nextTaskId + 1 })

/-- What `Tunnel.stop` returns: a thrown error, `undefined` (the bare
`return;` taken while `isStarting`), or the task that resolves with the
child process's exit code. -/
inductive StopResult where
  | threw (msg : String)
  | undef
  | stopTask
deriving DecidableEq, Repr

/-- Process-affecting operations performed by `Tunnel.stop`. -/
inductive TunnelAction where
  /-- `this._startTask.cancel()` -/
  | cancelStartTask
  /-- `childProcess.kill('SIGINT')` issued by `_stop` -/
  | killProcess
deriving DecidableEq, Repr

/-- `Tunnel.stop` (src/Tunnel.ts 584–612), synchronous part: throw when
already terminating; while `isStarting`, cancel the in-flight start task
and return `undefined`; throw "not running" when not running; otherwise
clear `isRunning`, set `isStopping` and run `_stop`, which kills the child
process and resolves with its exit code. -/
def stop (st : TunnelState) : StopResult × TunnelState × List TunnelAction :=
  if st.isStopping then (.threw "Tunnel is already terminating", st, [])
  else if st.isStarting then (.undef, st, [.cancelStartTask])
  else if !st.isRunning then (.threw "Tunnel is not running", st, [])
  else (.stopTask, { st with isRunning := false, isStopping := true }, [.killProcess])

/-! ## Tunnel download (src/Tunnel.ts 286–310) -/

/-- Observable outcome of one `download` call: an immediately resolved
task with no network activity, or a network request for the tunnel
software's URL. -/
inductive DownloadStep where
  | resolvedNoRequest
  | requested (url : String)
deriving DecidableEq, Repr

/-- The part of a `Tunnel` that `download` consults: whether the artifact
already exists at `join(directory, executable)` (the `isDownloaded`
getter, src/Tunnel.ts 286–288) and the download URL. -/
structure DownloadState where
  downloaded : Bool
  url : String
deriving DecidableEq, Repr

/-- `Tunnel.download` (src/Tunnel.ts 305–310): resolve immediately when
not forced and `isDownloaded` already holds; otherwise issue the network
request `_downloadFile(this.url, this.proxy)`. -/
def download (force : Bool) (st : DownloadState) : DownloadStep :=
  if !force && st.downloaded then .resolvedNoRequest
  else .requested st.url

/-- `download` together with the effect of its successful completion on
the filesystem: `_downloadFile` extracts the artifact into `directory`,
after which `isDownloaded` is true. -/
def downloadRun (force : Bool) (st : DownloadState) : DownloadStep × DownloadState :=
  match download force st with
  | .resolvedNoRequest => (.resolvedNoRequest, st)
  | .requested u => (.requested u, { st with downloaded := true })

/-! ## WebDriverTunnel port allocation (src/WebDriverTunnel.ts) -/

/-- The port-allocation state of a `WebDriverTunnel`: the `lastUsedPort`
field. -/
structure PortState where
  lastUsedPort : Nat
deriving DecidableEq, Repr

/-- Constructor initialization (src/WebDriverTunnel.ts 109):
`this.lastUsedPort = Number(this.port)` — the tunnel's configured base
port. -/
def initPortState (basePort : Nat) : PortState := { lastUsedPort := basePort }

/-- The port assignment performed by each `createWebDriverChild` call
(src/WebDriverTunnel.ts 249): `const port = ++this.lastUsedPort` —
pre-increment, so the assigned port is the incremented value. -/
def assignPort (st : PortState) : Nat × PortState :=
  (st.lastUsedPort + 1, { lastUsedPort := st.lastUsedPort + 1 })

/-- The allocation state after `n` calls to `createWebDriverChild` on a
tunnel whose base port is `basePort`. -/
def portStateAfter (basePort : Nat) : Nat → PortState
  | 0 => initPortState basePort
  | n + 1 => (assignPort (portStateAfter basePort n)).2

/-- The port assigned by the `(n+1)`-st call to `createWebDriverChild`. -/
def portAt (basePort n : Nat) : Nat := (assignPort (portStateAfter basePort n)).1

/-! ## WebDriverProxy (src/lib/WebDriverProxy.ts) -/

/-- JS truthiness of an optional string: present and non-empty. -/
def truthyStr : Option String → Option String
  | some s => if s = "" then none else some s
  | none => none

/-- JSON-ish bodies exchanged with a WebDriver server, with the optional
fields the proxy inspects: `id`, `sessionId`, a nested `value` object and
an `error` string. -/
inductive WDBody where
  | obj (id : Option String) (sessionId : Option String) (value : Option WDBody)
      (error : Option String)

/-- `getSessionIdFromBody` (WebDriverProxy.ts 21–31): an `id` property
wins, then `sessionId`, then the function recurses into `value`. -/
def getSessionIdFromBody : WDBody → Option String
  | .obj (some i) _ _ _ => some i
  | .obj none (some s) _ _ => some s
  | .obj none none (some v) _ => getSessionIdFromBody v
  | .obj none none none _ => none

/-- `if (newSessionInfo.value && newSessionInfo.value.error)`
(WebDriverProxy.ts 265): the body has a `value` object whose `error`
field is truthy. -/
def valueHasError : WDBody → Bool
  | .obj _ _ (some (.obj _ _ _ (some e))) _ => e ≠ ""
  | _ => false

/-- The splitting loop of `path.split('/')`: accumulate the current part
(in reverse) and emit it at each separator and at the end.  Empty parts
are preserved, as in JS `String.prototype.split`. -/
def splitSlashAux : List Char → List Char → List String
  | [], acc => [String.mk acc.reverse]
  | c :: cs, acc =>
      if c = '/' then String.mk acc.reverse :: splitSlashAux cs []
      else splitSlashAux cs (c :: acc)

/-- `req.path.split('/')` (WebDriverProxy.ts 12). -/
def splitSlash (path : String) : List String := splitSlashAux path.toList []

/-- The scanning loop of `getSessionIdFromPath` (WebDriverProxy.ts
12–18): find a `"session"` part with a successor and return that
successor. -/
def sessionIdScan : List String → Option String
  | "session" :: next :: _ => some next
  | _ :: rest => sessionIdScan rest
  | [] => none

/-- `getSessionIdFromPath` (WebDriverProxy.ts 11–19): split the request
path on `/` and return the part following the first `"session"` part. -/
def getSessionIdFromPath (path : String) : Option String :=
  sessionIdScan (splitSlash path)

/-- The `{value: {error, message}}` payload of a structured WebDriver
protocol error. -/
structure WDErrorValue where
  error : String
  message : String
deriving DecidableEq, Repr

/-- A structured WebDriver protocol error body. -/
structure WebDriverError where
  value : WDErrorValue
deriving DecidableEq, Repr

/-- `webDriverErrorFactory` (WebDriverProxy.ts 37–44). -/
def webDriverErrorFactory (code message : String) : WebDriverError :=
  { value := { error := code, message := message } }

/-- The `WebDriver` record (src/WebDriverTunnel.ts 20–27), restricted to
the parts the proxy reads or writes. -/
structure WebDriver where
  name : String
  port : Nat
  failedInitAttempts : Nat
  sessionInfo : Option WDBody

/-- The proxy's `webDriverMap`: WebDriver session id → driver data. -/
abbrev SessionMap : Type := List (String × WebDriver)

/-- `this.webDriverMap[sessionId] = webDriver`: record (or overwrite) a
session's driver. -/
def mapInsert (smap : SessionMap) (sid : String) (wd : WebDriver) : SessionMap :=
  (sid, wd) :: List.filter (fun p => p.1 ≠ sid) smap

/-- `this.webDriverMap[sessionId]`: look up a session's driver. -/
def mapLookup (smap : SessionMap) (sid : String) : Option WebDriver :=
  (List.find? (fun p => p.1 = sid) smap).map (fun p => p.2)

/-- Error payloads carried through the new-session retry loop: either a
synthesized structured error or the driver's own response body returned
verbatim (`errorResponse = newSessionInfo as WebDriverError`,
WebDriverProxy.ts 267). -/
inductive ProxyError where
  | synthesized (e : WebDriverError)
  | driverBody (b : WDBody)

/-- `checkNewSessionError` (WebDriverProxy.ts 237–249): without an error,
report false; with one, increment the driver's `failedInitAttempts` (the
JS code mutates the shared object — modelled by returning the updated
driver) and report whether the counter reached `maxConnectAttempts`. -/
def checkNewSessionError (maxConnectAttempts : Nat) (wd : WebDriver)
    (error : Option ProxyError) : WebDriver × Bool :=
  match error with
  | none => (wd, false)
  | some _ =>
      let wd := { wd with failedInitAttempts := wd.failedInitAttempts + 1 }
      (wd, decide (wd.failedInitAttempts ≥ maxConnectAttempts))

/-- The synthesized "did not return session information" error
(WebDriverProxy.ts 269–276 and 280–287). -/
def noSessionInfoError (wd : WebDriver) : WebDriverError :=
  webDriverErrorFactory "session not created"
    ("Request for a new " ++ wd.name ++ " session did not return session information.")

/-- `handleNewSessionResponse` (WebDriverProxy.ts 251–289): when the
response body holds a truthy session id, cache the body on the driver and
record the session mapping (no error); otherwise produce the driver's own
body when it carries a `value.error`, else a synthesized "session not
created" error; a missing payload also yields the synthesized error. -/
def handleNewSessionResponse (wd : WebDriver) (smap : SessionMap)
    (data : Option WDBody) : Option ProxyError × WebDriver × SessionMap :=
  match data with
  | some body =>
      match truthyStr (getSessionIdFromBody body) with
      | some sid =>
          let wd := { wd with sessionInfo := some body }
          (none, wd, mapInsert smap sid wd)
      | none =>
          if valueHasError body then (some (.driverBody body), wd, smap)
          else (some (.synthesized (noSessionInfoError wd)), wd, smap)
  | none => (some (.synthesized (noSessionInfoError wd)), wd, smap)

/-- Outcome of one HTTP request from the proxy to the driver: a
connection-level error (the request rejected), or a response whose body
parsed to `data` (`none` models an empty/unparsable payload). -/
inductive AttemptOutcome where
  | connError (msg : String)
  | response (data : Option WDBody)

/-- The synthesized connection error (WebDriverProxy.ts 225–231). -/
def connErrBody (msg : String) : ProxyError :=
  .synthesized (webDriverErrorFactory "session not created"
    ("WebDriver connection error: " ++ msg))

/-- Result of the new-session retry loop: a 200 response with the
driver's body and an updated session map, or a 500 response with the last
error after the failed driver was stopped; `noMoreEvents` is a model
artifact reached only when the scripted outcome list runs out. -/
inductive SessionResult where
  | success (data : WDBody) (wd : WebDriver) (smap : SessionMap)
  | failure (status : Nat) (err : Option ProxyError) (wd : WebDriver)
      (stopped : Bool) (smap : SessionMap)
  | noMoreEvents (wd : WebDriver) (smap : SessionMap)

/-- `requestNewSession` (WebDriverProxy.ts 182–235), with the outcomes of
the successive HTTP requests to the driver given as a script.  First
`checkNewSessionError` runs on the previous error; when it reports the
limit reached, the driver is stopped (`stopWebDriver`) and a 500 response
carries the previous error.  Otherwise the next request is made: a
connection error synthesizes a "session not created" error and retries
with the same driver; a response goes through `handleNewSessionResponse`
and either answers the client with the driver's body or retries with the
reported error. -/
def requestNewSession (maxConnectAttempts : Nat) (wd : WebDriver)
    (smap : SessionMap) (previousError : Option ProxyError)
    (outcomes : List AttemptOutcome) : SessionResult :=
  match outcomes, checkNewSessionError maxConnectAttempts wd previousError with
  | _, (wdc, true) => .failure 500 previousError wdc true smap
  | [], (wdc, false) => .noMoreEvents wdc smap
  | .connError msg :: rest, (wdc, false) =>
      requestNewSession maxConnectAttempts wdc smap (some (connErrBody msg)) rest
  | .response data :: rest, (wdc, false) =>
      match handleNewSessionResponse wdc smap data with
      | (none, wdn, smapn) =>
          .success (data.getD (.obj none none none none)) wdn smapn
      | (some err, wdn, smapn) =>
          requestNewSession maxConnectAttempts wdn smapn (some err) rest

/-- `delete this.webDriverMap[sessionId].sessionInfo` (WebDriverProxy.ts
137): the driver object mapped at the session id loses its cached
`sessionInfo`; the key itself stays mapped. -/
def clearSessionInfo (smap : SessionMap) (sid : String) : SessionMap :=
  List.map (fun p => if p.1 = sid then (p.1, { p.2 with sessionInfo := none }) else p) smap

/-- Actions performed by proxy route handlers. -/
inductive ProxyAction where
  /-- `this.proxyRequest(req, res)`: forward to the owning process -/
  | forward
  /-- `this.stopWebDriver(...)`: stop a driver process -/
  | stopDriver (port : Nat)
deriving DecidableEq, Repr

/-- The DELETE route handler (WebDriverProxy.ts 134–140): when the path
holds a truthy session id present in `webDriverMap`, delete the cached
`sessionInfo` on that session's driver (`delete
this.webDriverMap[sessionId].sessionInfo` — the map entry itself stays),
then forward the request via `proxyRequest`. -/
def deleteSessionHandler (smap : SessionMap) (path : String) :
    SessionMap × List ProxyAction :=
  match truthyStr (getSessionIdFromPath path) with
  | some sid =>
      if (mapLookup smap sid).isSome then
        (clearSessionInfo smap sid, [.forward])
      else (smap, [.forward])
  | none => (smap, [.forward])

/-- `getSessions` (WebDriverProxy.ts 365–375): the cached `sessionInfo`
payloads of all mapped sessions that have one. -/
def getSessions (smap : SessionMap) : List WDBody :=
  List.filterMap (fun p => p.2.sessionInfo) smap

/-! ## WebDriverProxy.createSession (WebDriverProxy.ts 159–180) -/

/-- Desired capabilities, restricted to the field the proxy reads. -/
structure Capabilities where
  browserName : Option String
deriving DecidableEq, Repr

/-- A new-session request body. -/
structure SessionRequestBody where
  desiredCapabilities : Option Capabilities

/-- Outcome of `webDriverChildFactory(browserName)`. -/
inductive FactoryOutcome where
  | resolved (wd : WebDriver)
  | rejectedF (msg : String)

/-- What the `createSession` handler writes back, when anything. -/
inductive CreateSessionResponse where
  | errorResponse (status : Nat) (err : WebDriverError)
  /-- control passed to `requestNewSession` with the acquired driver -/
  | newSession (wd : WebDriver)

/-- `createSession` (WebDriverProxy.ts 159–180): destructure
`desiredCapabilities` (defaulting to `{}`) and `browserName`; only when
`browserName` is truthy call the factory — on resolution continue with
`requestNewSession`, on rejection respond 500 with a structured error.
When `browserName` is absent or empty the handler body is skipped and no
response is written (`none`). -/
def createSession (body : SessionRequestBody) (factory : FactoryOutcome) :
    Option CreateSessionResponse :=
  let desiredCapabilities := body.desiredCapabilities.getD { browserName := none }
  match truthyStr desiredCapabilities.browserName with
  | some _ =>
      match factory with
      | .resolved wd => some (.newSession wd)
      | .rejectedF msg =>
          some (.errorResponse 500
            (webDriverErrorFactory "" ("Failed to start WebDriver executable: " ++ msg)))
  | none => none

/-! ## Values and predicates used by the statements below -/

/-- A driver response body carrying a session id, e.g.
`{sessionId: "abc123", value: {}}`. -/
def sessionBody (sid : String) : WDBody :=
  .obj none (some sid) (some (.obj none none none none)) none

/-- A driver-reported structured error response body carrying no session
id, e.g. `{value: {error: "session not created"}}` — the shape
`handleNewSessionResponse` recognizes at WebDriverProxy.ts 265. -/
def errBody (e : String) : WDBody :=
  .obj none none (some (.obj none none none (some e))) none

/-- One erroring attempt in a new-session retry script: a
connection-level error (the request to the driver rejected) or a
driver-reported structured error response (a body with a `value.error`
field and no session id). -/
inductive ErrStep where
  | conn (msg : String)
  | driver (e : String)

/-- The request outcome an erroring attempt produces. -/
def ErrStep.toOutcome : ErrStep → AttemptOutcome
  | .conn msg => .connError msg
  | .driver e => .response (some (errBody e))

/-- The error the proxy carries into the next retry for an erroring
attempt: the synthesized connection error, or the driver's own response
body returned verbatim. -/
def ErrStep.toError : ErrStep → ProxyError
  | .conn msg => connErrBody msg
  | .driver e => .driverBody (errBody e)

/-- A driver-reported error string must be truthy (non-empty) for
`handleNewSessionResponse` to return the driver's body as the error. -/
def ErrStep.wellFormed : ErrStep → Prop
  | .conn _ => True
  | .driver e => e ≠ ""

/-- The error carried into the final 500 response after a run of erroring
attempts: the error of the last one. -/
def lastErrStep (e : ProxyError) : List ErrStep → ProxyError
  | [] => e
  | s :: ss => lastErrStep s.toError ss

/-- A sample driver record, as built by `createWebDriverChild` with
`failedInitAttempts: 0` and the first port above the default base port
4444. -/
def wdChrome : WebDriver :=
  { name := "chrome", port := 4445, failedInitAttempts := 0, sessionInfo := none }

/-- A sample driver record with a cached session-creation response for
session id `"abc"`. -/
def wdC6 : WebDriver :=
  { name := "chrome", port := 4445, failedInitAttempts := 0
    sessionInfo := some (sessionBody "abc") }

/-- Invariant of the `_makeChild` / `makeChildWithCommand` event machines:
a cancellation always issued a kill and left the inner task in the
canceled state, and a canceled run can only have settled after observing
the child's exit event. -/
def MCInv (st : MCState) : Prop :=
  (st.canceled = true → st.killIssued = true ∧ st.task = .canceledTask) ∧
  (st.canceled = true → st.settled = true → st.exitAfterCancel = true)

/-! ## Theorems -/

theorem stepT_inv (st : MCState) (e : MCEvent) (h : MCInv st) : MCInv (stepT st e) := by
  obtain ⟨h1, h2⟩ := h
  by_cases hs : st.settled = true
  · simpa [stepT, hs] using ⟨h1, h2⟩
  · cases e with
    | stderrData s =>
        by_cases hp : st.task = .pending <;> simp_all [stepT, MCInv]
    | exitEvt c =>
        by_cases hc : st.canceled = true
        · simp_all [stepT, MCInv]
        · by_cases hp : st.task = .pending
          · by_cases hcl : st.stderrClosed = true <;> simp_all [stepT, MCInv]
          · simp_all [stepT, MCInv]
    | stderrClose =>
        by_cases hp : st.task = .pending
        · rcases hx : st.exitCode with _ | c <;> simp_all [stepT, MCInv]
        · simp_all [stepT, MCInv]
    | errorEvt msg =>
        by_cases hp : st.task = .pending <;> simp_all [stepT, MCInv]
    | execResolve =>
        by_cases hp : st.task = .pending <;> simp_all [stepT, MCInv]
    | cancel =>
        by_cases hp : st.task = .pending <;> simp_all [stepT, MCInv]

theorem stepC_inv (st : MCState) (e : MCEvent) (h : MCInv st) : MCInv (stepC st e) := by
  obtain ⟨h1, h2⟩ := h
  by_cases hs : st.settled = true
  · simpa [stepC, hs] using ⟨h1, h2⟩
  · cases e with
    | stderrData s =>
        by_cases hp : st.task = .pending <;> simp_all [stepC, MCInv]
    | exitEvt c =>
        by_cases hc : st.canceled = true
        · simp_all [stepC, MCInv]
        · by_cases hp : st.task = .pending
          · by_cases hcl : st.stderrClosed = true <;> simp_all [stepC, MCInv]
          · simp_all [stepC, MCInv]
    | stderrClose =>
        by_cases hp : st.task = .pending
        · by_cases hx : st.exitted = true <;> simp_all [stepC, MCInv]
        · simp_all [stepC, MCInv]
    | errorEvt msg =>
        by_cases hp : st.task = .pending <;> simp_all [stepC, MCInv]
    | execResolve =>
        by_cases hp : st.task = .pending <;> simp_all [stepC, MCInv]
    | cancel =>
        by_cases hp : st.task = .pending <;> simp_all [stepC, MCInv]

theorem foldl_stepT_inv (evs : List MCEvent) (st : MCState) (h : MCInv st) :
    MCInv (evs.foldl stepT st) := by
  induction evs generalizing st with
  | nil => exact h
  | cons e rest ih => exact ih _ (stepT_inv st e h)

theorem foldl_stepC_inv (evs : List MCEvent) (st : MCState) (h : MCInv st) :
    MCInv (evs.foldl stepC st) := by
  induction evs generalizing st with
  | nil => exact h
  | cons e rest ih => exact ih _ (stepC_inv st e h)

/-- C1: For every `start()` task that is cancelled after the child process
was spawned, the cancellation kills the child process (a kill is issued in
the cancel callback) and the task settles only after the child's `exit`
event has been observed (the `finally` clause of both `Tunnel._makeChild`
and `makeChildWithCommand` waits for `exit` before the outer task
settles), so the process is reaped before cancellation completes. -/
theorem c1_cancel_kills_and_reaps (evs : List MCEvent) :
    ((runT evs).canceled = true →
      (runT evs).killIssued = true ∧
      ((runT evs).settled = true → (runT evs).exitAfterCancel = true)) ∧
    ((runC evs).canceled = true →
      (runC evs).killIssued = true ∧
      ((runC evs).settled = true → (runC evs).exitAfterCancel = true)) := by
  have h0 : MCInv initMC := by simp [MCInv, initMC]
  have hT := foldl_stepT_inv evs initMC h0
  have hC := foldl_stepC_inv evs initMC h0
  exact ⟨fun hc => ⟨(hT.1 hc).1, hT.2 hc⟩, fun hc => ⟨(hC.1 hc).1, hC.2 hc⟩⟩

/-- Witness for C1 at the concrete run "cancel, then the child exits". -/
theorem c1_cancel_kills_and_reaps_witness :
    (runT [.cancel, .exitEvt 0]).killIssued = true ∧
    (runT [.cancel, .exitEvt 0]).exitAfterCancel = true ∧
    (runC [.cancel, .exitEvt 0]).killIssued = true ∧
    (runC [.cancel, .exitEvt 0]).exitAfterCancel = true := by
  have h := c1_cancel_kills_and_reaps [.cancel, .exitEvt 0]
  exact ⟨(h.1 (by decide)).1, (h.1 (by decide)).2 (by decide),
    (h.2 (by decide)).1, (h.2 (by decide)).2 (by decide)⟩

/-- C2: evaluation of `makeChildWithCommand` at the failing input "the
child exits with code 1 with empty stderr, then stderr closes".  The
rejection does wait for both the `exit` and the stderr `close` events, but
the message is `"Tunnel failed to start: Exit code: undefined"`: the
`exit` handler (tunnelChildProcesses.ts 62–67) sets only `exitted = true`
and never assigns the declared `exitCode` variable, so the observed exit
code 1 does not appear in the message, contrary to the claim and to the
sibling implementation `Tunnel._makeChild` (src/Tunnel.ts 407–412), which
does capture it. -/
theorem c2_exit_code_lost :
    (runC [.exitEvt 1, .stderrClose]).task =
      .rejected "Tunnel failed to start: Exit code: undefined" ∧
    (runC [.exitEvt 1, .stderrClose]).exitCode = none ∧
    (runT [.exitEvt 1, .stderrClose]).task =
      .rejected "Tunnel failed to start: Exit code: 1" := by
  refine ⟨rfl, rfl, rfl⟩

/-- C3: while a `start()` call is in flight (`isStarting` set by the first
call), a second `start()` returns the same in-flight `_startTask` and
leaves the state — in particular the number of spawned processes —
unchanged; across the two calls exactly one process is spawned. -/
theorem c3_second_start_returns_same_task (st st' : TunnelState) (t : Nat)
    (hs : st.isStarting = true) (hr : st.isRunning = false)
    (hp : st.isStopping = false) (ht : st.startTask = some t)
    (hs' : st'.isStarting = false) (hr' : st'.isRunning = false)
    (hp' : st'.isStopping = false) :
    start st = (.task t, st) ∧
    start (start st').2 = ((start st').1, (start st').2) ∧
    (start st').2.spawnCount = st'.spawnCount + 1 := by
  refine ⟨by simp [start, hs, hr, hp, ht], ?_, by simp [start, hs', hr', hp']⟩
  simp [start, hs', hr', hp']

/-- Witness for C3: a fresh tunnel, and one with a start in flight. -/
theorem c3_second_start_returns_same_task_witness :
    start { initTunnel with isStarting := true, startTask := some 7 } =
      (.task 7, { initTunnel with isStarting := true, startTask := some 7 }) ∧
    start (start initTunnel).2 = ((start initTunnel).1, (start initTunnel).2) ∧
    (start initTunnel).2.spawnCount = initTunnel.spawnCount + 1 :=
  c3_second_start_returns_same_task
    { initTunnel with isStarting := true, startTask := some 7 } initTunnel 7
    rfl rfl rfl rfl rfl rfl rfl

/-- C8: `stop()` on an instance that is neither starting, running nor
stopping — in particular a never-started one — throws "Tunnel is not
running", leaves the state unchanged and performs no process
operations. -/
theorem c8_stop_not_running (st : TunnelState)
    (h1 : st.isStopping = false) (h2 : st.isStarting = false)
    (h3 : st.isRunning = false) :
    stop st = (.threw "Tunnel is not running", st, []) := by
  simp [stop, h1, h2, h3]

/-- Witness for C8: a fresh, never-started tunnel. -/
theorem c8_stop_not_running_witness :
    stop initTunnel = (.threw "Tunnel is not running", initTunnel, []) :=
  c8_stop_not_running initTunnel rfl rfl rfl

/-- C10: `stop()` while `isStarting` cancels the in-flight start task and
returns `undefined` (the bare `return;` at src/Tunnel.ts 590) — not the
task that resolves with an exit code. -/
theorem c10_stop_while_starting (st : TunnelState)
    (h1 : st.isStopping = false) (h2 : st.isStarting = true) :
    stop st = (.undef, st, [.cancelStartTask]) ∧ (stop st).1 ≠ .stopTask := by
  simp [stop, h1, h2]

/-- Witness for C10: a tunnel with a start in flight. -/
theorem c10_stop_while_starting_witness :
    stop { initTunnel with isStarting := true } =
      (.undef, { initTunnel with isStarting := true }, [.cancelStartTask]) ∧
    (stop { initTunnel with isStarting := true }).1 ≠ .stopTask :=
  c10_stop_while_starting { initTunnel with isStarting := true } rfl rfl

/-- C9: when the artifact already exists at the expected path
(`isDownloaded`), `download()` without `force` resolves immediately with
no network request; and after any completed `download()`, a second
`download()` without `force` makes no network request. -/
theorem c9_download_idempotent (st st' : DownloadState) (h : st.downloaded = true) :
    download false st = .resolvedNoRequest ∧
    download false (downloadRun false st').2 = .resolvedNoRequest := by
  constructor
  · simp [download, h]
  · by_cases h' : st'.downloaded = true <;> simp [downloadRun, download, h']

/-- Witness for C9: an already-downloaded artifact, and a first download
that had to fetch. -/
theorem c9_download_idempotent_witness :
    download false { downloaded := true, url := "https://example.com/tunnel.zip" } =
      .resolvedNoRequest ∧
    download false
        (downloadRun false { downloaded := false, url := "https://example.com/tunnel.zip" }).2 =
      .resolvedNoRequest :=
  c9_download_idempotent
    { downloaded := true, url := "https://example.com/tunnel.zip" }
    { downloaded := false, url := "https://example.com/tunnel.zip" } rfl

theorem portStateAfter_eq (basePort n : Nat) :
    portStateAfter basePort n = { lastUsedPort := basePort + n } := by
  induction n with
  | zero => simp [portStateAfter, initPortState]
  | succ n ih =>
      simp only [portStateAfter, assignPort, ih, PortState.mk.injEq]
      omega

theorem portAt_eq (basePort n : Nat) : portAt basePort n = basePort + n + 1 := by
  simp [portAt, assignPort, portStateAfter_eq]

/-- C5: the ports assigned by successive `createWebDriverChild` calls are
strictly greater than the configured base port, strictly increasing, and
pairwise distinct — so a retried spawn never receives a previously
assigned port. -/
theorem c5_ports_strictly_increasing (basePort i j : Nat) (hij : i < j) :
    basePort < portAt basePort i ∧
    portAt basePort i < portAt basePort j ∧
    portAt basePort i ≠ portAt basePort j := by
  simp only [portAt_eq]
  omega

/-- Witness for C5 at the default base port 4444. -/
theorem c5_ports_strictly_increasing_witness :
    4444 < portAt 4444 0 ∧ portAt 4444 0 < portAt 4444 1 ∧
    portAt 4444 0 ≠ portAt 4444 1 :=
  c5_ports_strictly_increasing 4444 0 1 (by decide)

theorem requestNewSession_conn_step (maxA : Nat) (wd : WebDriver) (smap : SessionMap)
    (m : String) (rest : List AttemptOutcome) :
    requestNewSession maxA wd smap none (.connError m :: rest) =
      requestNewSession maxA wd smap (some (connErrBody m)) rest := by
  conv_lhs => rw [requestNewSession.eq_def]
  simp [checkNewSessionError]

theorem requestNewSession_some_step (maxA : Nat) (wd : WebDriver) (smap : SessionMap)
    (e : ProxyError) (outs : List AttemptOutcome)
    (h : wd.failedInitAttempts + 1 < maxA) :
    requestNewSession maxA wd smap (some e) outs =
      requestNewSession maxA { wd with failedInitAttempts := wd.failedInitAttempts + 1 }
        smap none outs := by
  have hd : ¬ (wd.failedInitAttempts + 1 ≥ maxA) := by omega
  cases outs with
  | nil => simp [requestNewSession, checkNewSessionError, hd]
  | cons o rest =>
      cases o <;> simp [requestNewSession, checkNewSessionError, hd]

theorem requestNewSession_success_base (maxA : Nat) (wd : WebDriver) (smap : SessionMap)
    (sid : String) (hsid : sid ≠ "") :
    requestNewSession maxA wd smap none [.response (some (sessionBody sid))] =
      .success (sessionBody sid) { wd with sessionInfo := some (sessionBody sid) }
        (mapInsert smap sid { wd with sessionInfo := some (sessionBody sid) }) := by
  simp [requestNewSession, checkNewSessionError, handleNewSessionResponse,
    sessionBody, getSessionIdFromBody, truthyStr, hsid]

theorem requestNewSession_driver_err_step (maxA : Nat) (wd : WebDriver)
    (smap : SessionMap) (e : String) (he : e ≠ "") (rest : List AttemptOutcome) :
    requestNewSession maxA wd smap none (.response (some (errBody e)) :: rest) =
      requestNewSession maxA wd smap (some (.driverBody (errBody e))) rest := by
  conv_lhs => rw [requestNewSession.eq_def]
  simp [checkNewSessionError, handleNewSessionResponse, errBody,
    getSessionIdFromBody, truthyStr, valueHasError, he]

theorem requestNewSession_err_step (maxA : Nat) (wd : WebDriver) (smap : SessionMap)
    (s : ErrStep) (hs : s.wellFormed) (rest : List AttemptOutcome) :
    requestNewSession maxA wd smap none (s.toOutcome :: rest) =
      requestNewSession maxA wd smap (some s.toError) rest := by
  cases s with
  | conn msg =>
      simpa [ErrStep.toOutcome, ErrStep.toError] using
        requestNewSession_conn_step maxA wd smap msg rest
  | driver e =>
      simpa [ErrStep.toOutcome, ErrStep.toError] using
        requestNewSession_driver_err_step maxA wd smap e hs rest

theorem requestNewSession_errs_then_success (maxA : Nat) (steps : List ErrStep)
    (wd : WebDriver) (smap : SessionMap) (sid : String) (hsid : sid ≠ "")
    (hwf : ∀ s ∈ steps, s.wellFormed)
    (h : wd.failedInitAttempts + steps.length < maxA) :
    requestNewSession maxA wd smap none
        (steps.map ErrStep.toOutcome ++ [.response (some (sessionBody sid))]) =
      .success (sessionBody sid)
        { wd with failedInitAttempts := wd.failedInitAttempts + steps.length
                  sessionInfo := some (sessionBody sid) }
        (mapInsert smap sid
          { wd with failedInitAttempts := wd.failedInitAttempts + steps.length
                    sessionInfo := some (sessionBody sid) }) := by
  induction steps generalizing wd with
  | nil => simpa using requestNewSession_success_base maxA wd smap sid hsid
  | cons s ss ih =>
      have hlt : wd.failedInitAttempts + 1 < maxA := by
        simp only [List.length_cons] at h; omega
      rw [List.map_cons, List.cons_append,
        requestNewSession_err_step maxA wd smap s (hwf s (by simp)),
        requestNewSession_some_step maxA wd smap _ _ hlt]
      have h2 : ({ wd with failedInitAttempts := wd.failedInitAttempts + 1 } :
          WebDriver).failedInitAttempts + ss.length < maxA := by
        simp only [List.length_cons] at h; simp; omega
      rw [ih _ (fun s hs => hwf s (List.mem_cons_of_mem _ hs)) h2]
      have hx : wd.failedInitAttempts + 1 + ss.length =
          wd.failedInitAttempts + (s :: ss).length := by
        simp only [List.length_cons]; omega
      simp [hx]

theorem requestNewSession_err_exhausts (maxA : Nat) (steps : List ErrStep)
    (wd : WebDriver) (smap : SessionMap) (e : ProxyError)
    (hwf : ∀ s ∈ steps, s.wellFormed)
    (h : wd.failedInitAttempts + 1 + steps.length = maxA) :
    requestNewSession maxA wd smap (some e) (steps.map ErrStep.toOutcome) =
      .failure 500 (some (lastErrStep e steps))
        { wd with failedInitAttempts := maxA } true smap := by
  induction steps generalizing wd e with
  | nil =>
      have hd : wd.failedInitAttempts + 1 ≥ maxA := by
        simp only [List.length_nil] at h; omega
      have hm : wd.failedInitAttempts + 1 = maxA := by
        simp only [List.length_nil] at h; omega
      simp [requestNewSession, checkNewSessionError, hd, lastErrStep, hm]
  | cons s ss ih =>
      have hlt : wd.failedInitAttempts + 1 < maxA := by
        simp only [List.length_cons] at h; omega
      rw [List.map_cons, requestNewSession_some_step maxA wd smap _ _ hlt,
        requestNewSession_err_step maxA _ smap s (hwf s (by simp))]
      have h2 : ({ wd with failedInitAttempts := wd.failedInitAttempts + 1 } :
          WebDriver).failedInitAttempts + 1 + ss.length = maxA := by
        simp only [List.length_cons] at h; simp; omega
      rw [ih _ _ (fun s hs => hwf s (List.mem_cons_of_mem _ hs)) h2]
      simp [lastErrStep]

theorem lastErrStep_append_last (e : ProxyError) (front : List ErrStep) (sLast : ErrStep) :
    lastErrStep e (front ++ [sLast]) = sLast.toError := by
  induction front generalizing e with
  | nil => simp [lastErrStep]
  | cons f fs ih => simp [lastErrStep, ih]

/-- C4: every connection-level error and every driver-reported structured
error (a response with a `value.error` field and no session id) during
session creation increments the acquired driver's `failedInitAttempts`
and retries against the same driver record (same port); with fewer
erroring attempts than `maxConnectAttempts` a final successful response
yields a success against that same driver, while a run of
`maxConnectAttempts` erroring attempts stops the driver and answers HTTP
500 with the last error — for a driver-reported error, the driver's own
response body. -/
theorem c4_new_session_retry (maxA : Nat) (wd : WebDriver) (smap : SessionMap)
    (stepsA stepsF : List ErrStep) (sLast : ErrStep) (sid : String)
    (h0 : wd.failedInitAttempts = 0) (hsid : sid ≠ "")
    (hwfA : ∀ s ∈ stepsA, s.wellFormed)
    (hwfF : ∀ s ∈ stepsF ++ [sLast], s.wellFormed)
    (hA : stepsA.length < maxA) (hB : stepsF.length + 1 = maxA) :
    requestNewSession maxA wd smap none
        (stepsA.map ErrStep.toOutcome ++ [.response (some (sessionBody sid))]) =
      .success (sessionBody sid)
        { wd with failedInitAttempts := stepsA.length
                  sessionInfo := some (sessionBody sid) }
        (mapInsert smap sid
          { wd with failedInitAttempts := stepsA.length
                    sessionInfo := some (sessionBody sid) }) ∧
    requestNewSession maxA wd smap none ((stepsF ++ [sLast]).map ErrStep.toOutcome) =
      .failure 500 (some sLast.toError)
        { wd with failedInitAttempts := maxA } true smap := by
  constructor
  · have hh := requestNewSession_errs_then_success maxA stepsA wd smap sid hsid hwfA
      (by omega)
    simpa [h0] using hh
  · cases stepsF with
    | nil =>
        simp only [List.nil_append, List.map_cons, List.map_nil]
        rw [requestNewSession_err_step maxA wd smap sLast (hwfF sLast (by simp))]
        have hh := requestNewSession_err_exhausts maxA [] wd smap sLast.toError
          (by simp)
          (by simp only [List.length_nil]; simp only [List.length_nil] at hB; omega)
        simpa [lastErrStep] using hh
    | cons f fs =>
        simp only [List.cons_append, List.map_cons]
        rw [requestNewSession_err_step maxA wd smap f (hwfF f (by simp))]
        have hh := requestNewSession_err_exhausts maxA (fs ++ [sLast]) wd smap f.toError
          (fun s hs => hwfF s (List.mem_cons_of_mem f hs))
          (by simp only [List.length_append, List.length_cons, List.length_nil] at hB ⊢
              omega)
        rw [List.map_append] at hh
        simpa [lastErrStep_append_last] using hh

/-- Witness for C4: with `maxConnectAttempts = 3`, a connection error
followed by a driver-reported structured error and then a success
succeeds against the same driver (same port 4445) with the counter at 2;
a connection error followed by two driver-reported structured errors
yields a 500 carrying the last driver body with the driver stopped. -/
theorem c4_new_session_retry_witness :
    requestNewSession 3 wdChrome [] none
        [.connError "e1", .response (some (errBody "session not created")),
          .response (some (sessionBody "abc123"))] =
      .success (sessionBody "abc123")
        { wdChrome with failedInitAttempts := 2
                        sessionInfo := some (sessionBody "abc123") }
        (mapInsert [] "abc123"
          { wdChrome with failedInitAttempts := 2
                          sessionInfo := some (sessionBody "abc123") }) ∧
    requestNewSession 3 wdChrome [] none
        [.connError "e1", .response (some (errBody "bad capabilities")),
          .response (some (errBody "boom"))] =
      .failure 500 (some (.driverBody (errBody "boom")))
        { wdChrome with failedInitAttempts := 3 } true [] := by
  have h := c4_new_session_retry 3 wdChrome []
    [.conn "e1", .driver "session not created"]
    [.conn "e1", .driver "bad capabilities"] (.driver "boom") "abc123"
    rfl (by decide)
    (by intro s hs
        simp only [List.mem_cons, List.not_mem_nil, or_false] at hs
        rcases hs with rfl | rfl
        · trivial
        · exact (by decide : ("session not created" : String) ≠ ""))
    (by intro s hs
        simp only [List.cons_append, List.nil_append, List.mem_cons,
          List.not_mem_nil, or_false] at hs
        rcases hs with rfl | rfl | rfl
        · trivial
        · exact (by decide : ("bad capabilities" : String) ≠ "")
        · exact (by decide : ("boom" : String) ≠ ""))
    (by decide) rfl
  simpa [ErrStep.toOutcome, ErrStep.toError] using h

theorem mapLookup_clearSessionInfo (smap : SessionMap) (sid : String) :
    mapLookup (clearSessionInfo smap sid) sid =
      (mapLookup smap sid).map (fun w => { w with sessionInfo := none }) := by
  induction smap with
  | nil => simp [mapLookup, clearSessionInfo]
  | cons p rest ih =>
      simp only [mapLookup, clearSessionInfo, List.map_cons] at ih ⊢
      by_cases hp : p.1 = sid
      · rw [if_pos hp, List.find?_cons_of_pos _ (by simp [hp]),
          List.find?_cons_of_pos _ (by simp [hp])]
        simp
      · rw [if_neg hp, List.find?_cons_of_neg _ (by simp [hp]),
          List.find?_cons_of_neg _ (by simp [hp])]
        exact ih

theorem getSessions_clearSessionInfo (smap : SessionMap) (sid : String) :
    getSessions (clearSessionInfo smap sid) =
      getSessions (List.filter (fun p => p.1 ≠ sid) smap) := by
  induction smap with
  | nil => rfl
  | cons p rest ih =>
      by_cases hp : p.1 = sid
      · simpa [getSessions, clearSessionInfo, List.filter_cons, hp] using ih
      · cases h2 : p.2.sessionInfo <;>
          simpa [getSessions, clearSessionInfo, List.filter_cons, hp, h2] using ih

/-- C6 counterexample: handling `DELETE /wd/hub/session/abc` on a map
holding session `"abc"` does NOT remove the mapping — the code runs
`delete this.webDriverMap[sessionId].sessionInfo`, which clears only the
cached field, so `"abc"` is still mapped afterwards, contrary to the
claim that the session's mapping is removed from the session map. -/
theorem c6_counterexample :
    (deleteSessionHandler [("abc", wdC6)] "/wd/hub/session/abc").1 =
      [("abc", { wdC6 with sessionInfo := none })] ∧
    mapLookup (deleteSessionHandler [("abc", wdC6)] "/wd/hub/session/abc").1 "abc" =
      some { wdC6 with sessionInfo := none } :=
  ⟨rfl, rfl⟩

/-- C6 (as amended): handling `DELETE {prefix}/session/:id` for a mapped
session id clears that session's cached `sessionInfo` while the session id
stays mapped in `webDriverMap`; the session therefore no longer appears in
the aggregate session list; the request is forwarded to the owning
process, and no driver process is stopped (the only action is the
forward). -/
theorem c6_delete_clears_cached_info (smap : SessionMap) (sid : String)
    (wd : WebDriver) (path : String)
    (hpath : truthyStr (getSessionIdFromPath path) = some sid)
    (hmem : mapLookup smap sid = some wd) :
    mapLookup (deleteSessionHandler smap path).1 sid =
      some { wd with sessionInfo := none } ∧
    getSessions (deleteSessionHandler smap path).1 =
      getSessions (List.filter (fun p => p.1 ≠ sid) smap) ∧
    (deleteSessionHandler smap path).2 = [.forward] := by
  have hsome : (mapLookup smap sid).isSome = true := by rw [hmem]; rfl
  simp only [deleteSessionHandler, hpath, hsome, if_true]
  refine ⟨?_, getSessions_clearSessionInfo smap sid, trivial⟩
  rw [mapLookup_clearSessionInfo, hmem]
  rfl

/-- Witness for C6 at a concrete one-session map. -/
theorem c6_delete_clears_cached_info_witness :
    mapLookup (deleteSessionHandler [("abc", wdC6)] "/wd/hub/session/abc").1 "abc" =
      some { wdC6 with sessionInfo := none } ∧
    getSessions (deleteSessionHandler [("abc", wdC6)] "/wd/hub/session/abc").1 =
      getSessions (List.filter (fun p => p.1 ≠ "abc") [("abc", wdC6)]) ∧
    (deleteSessionHandler [("abc", wdC6)] "/wd/hub/session/abc").2 = [.forward] :=
  c6_delete_clears_cached_info [("abc", wdC6)] "abc" wdC6 "/wd/hub/session/abc" rfl rfl

/-- C7 counterexample: a `POST {prefix}/session` request whose desired
capabilities carry no `browserName` receives NO response at all — the
handler (WebDriverProxy.ts 163) has no else branch — rather than the
claimed HTTP 500 structured error. -/
theorem c7_counterexample :
    createSession { desiredCapabilities := some { browserName := none } }
      (.resolved wdChrome) = none ∧
    createSession { desiredCapabilities := none } (.resolved wdChrome) = none :=
  ⟨rfl, rfl⟩

/-- C7 (as amended): when the desired-capabilities payload carries no (or
an empty) `browserName`, `createSession` writes no response whatsoever,
whatever the factory would do; the HTTP 500 structured
`{value:{error, message}}` error is produced only when `browserName` is
present and the pool's factory rejects. -/
theorem c7_missing_browser_name (body : SessionRequestBody) (factory : FactoryOutcome)
    (bn msg : String) (hbn : bn ≠ "")
    (h : truthyStr (body.desiredCapabilities.getD { browserName := none }).browserName =
      none) :
    createSession body factory = none ∧
    createSession { desiredCapabilities := some { browserName := some bn } }
        (.rejectedF msg) =
      some (.errorResponse 500
        (webDriverErrorFactory "" ("Failed to start WebDriver executable: " ++ msg))) := by
  constructor
  · simp [createSession, h]
  · simp [createSession, truthyStr, hbn]

/-- Witness for C7: a request without `browserName`, and a rejecting
factory for a present one. -/
theorem c7_missing_browser_name_witness :
    createSession { desiredCapabilities := some { browserName := none } }
      (.resolved wdChrome) = none ∧
    createSession { desiredCapabilities := some { browserName := some "chrome" } }
        (.rejectedF "spawn failed") =
      some (.errorResponse 500
        (webDriverErrorFactory ""
          ("Failed to start WebDriver executable: " ++ "spawn failed"))) :=
  c7_missing_browser_name { desiredCapabilities := some { browserName := none } }
    (.resolved wdChrome) "chrome" "spawn failed" (by decide) rfl

end DigDug
